import Mathlib

/-!
# Verification of the customer-triage pipeline

Shallow embedding of the multi-agent customer-triage pipeline
(`services/geminiService.ts`, `services/mockData.ts`, `types.ts`) and proofs
about its risk scorer, SLA estimator, team router, and orchestrator.

Modelling conventions:
* TypeScript string enums become inductive types together with a `val`
  function giving the enum's string value (used where the source
  interpolates the enum into a message).
* JS numbers holding SLA thresholds (`4`, `24`, `0.25`, `1`) become exact
  rationals (`ℚ`); `0.25` is written `mkRat 1 4`.
* The three external language-model calls are abstracted by a `ModelOracle`:
  for each call site, `none` models a thrown error anywhere inside the
  corresponding `try` block (transport failure or a `JSON.parse` /
  field-access failure on the reply), and `some v` models a successfully
  parsed structured reply whose optional fields mirror the parsed JSON
  object's present/absent fields.
* The `onStepUpdate` callback is modelled by the ordered list of emitted
  `ProcessingStep`s returned alongside the result; `timestamp`
  (`Date.now()`, wall clock) and the never-used optional `details` field
  are not modelled.
* `JSON.stringify`-built prompt strings are consumed only by the external
  model, which the oracle abstracts, so prompts (and hence `history` and
  the mock customer-context records) have no observable effect and carry
  no logic in the embedding.
* JS `toLowerCase` is modelled on basic-latin letters via `Char.toLower`
  (all configured keywords are ASCII); `x.includes(y)` is modelled by an
  explicit character-list substring check.
* Numeric-to-string rendering inside progress messages (`toString` on a
  score or threshold) approximates JS number formatting; no theorem
  depends on the rendered digits.
-/

namespace Triage

/-! ## `types.ts` -/

/-- `AgentType` (types.ts lines 1-7). -/
inductive AgentType
  | MASTER
  | SLA
  | RISK
  | VALIDATION
  | SYSTEM
  deriving DecidableEq, Repr

/-- `IntentType` (types.ts lines 9-14). -/
inductive IntentType
  | QUERY
  | FEEDBACK
  | COMPLAINT
  | UNKNOWN
  deriving DecidableEq, Repr

/-- The string value of each `IntentType` enum member. -/
def IntentType.val : IntentType → String
  | .QUERY => "Product Query"
  | .FEEDBACK => "Feedback/Feature"
  | .COMPLAINT => "Complaint"
  | .UNKNOWN => "Unknown"

/-- `RiskLevel` (types.ts lines 16-21). -/
inductive RiskLevel
  | LOW
  | MEDIUM
  | HIGH
  | CRITICAL
  deriving DecidableEq, Repr

/-- The string value of each `RiskLevel` enum member. -/
def RiskLevel.val : RiskLevel → String
  | .LOW => "Low"
  | .MEDIUM => "Medium"
  | .HIGH => "High"
  | .CRITICAL => "Critical"

/-- `ProcessingStep` (types.ts lines 23-29); `timestamp` and the never-set
optional `details` field are not modelled. -/
structure ProcessingStep where
  agent : AgentType
  message : String
  status : String
  deriving DecidableEq, Repr

/-- `SuggestedAction` (types.ts lines 31-35). -/
structure SuggestedAction where
  label : String
  text : String
  type : String
  deriving DecidableEq, Repr

/-- `ChatMessage` (types.ts lines 37-56), restricted to the fields the
pipeline reads (`role`, `content`); the optional UI bookkeeping fields and
`timestamp` play no role in the pipeline. -/
structure ChatMessage where
  id : String
  role : String
  content : String
  deriving DecidableEq, Repr

/-- `slaThresholds` component of `DomainConfig` (types.ts lines 77-80). -/
structure SLAThresholds where
  urgent : ℚ
  standard : ℚ
  deriving DecidableEq, Repr

/-- `riskKeywords` component of `DomainConfig` (types.ts lines 81-85). -/
structure RiskKeywords where
  critical : List String
  high : List String
  medium : List String
  deriving DecidableEq, Repr

/-- `DomainConfig` (types.ts lines 72-86). -/
structure DomainConfig where
  id : String
  name : String
  logo : String
  description : String
  slaThresholds : SLAThresholds
  riskKeywords : RiskKeywords
  deriving DecidableEq, Repr

/-! ## String helpers (JS semantics) -/

/-- JS `String.prototype.toLowerCase`, modelled on basic-latin letters
(every configured keyword is ASCII). -/
def jsToLower (s : String) : String :=
  ⟨s.data.map Char.toLower⟩

/-- `needle` begins `l` (character-wise). -/
def leadsWith : List Char → List Char → Bool
  | [], _ => true
  | _ :: _, [] => false
  | a :: as, b :: bs => a == b && leadsWith as bs

/-- `needle` occurs contiguously inside `l`. -/
def hasSub (needle : List Char) : List Char → Bool
  | [] => needle.isEmpty
  | b :: bs => leadsWith needle (b :: bs) || hasSub needle bs

/-- JS `haystack.includes(needle)`. -/
def strContains (haystack needle : String) : Bool :=
  hasSub needle.data haystack.data

/-! ## `mockData.ts` — domain registry -/

/-- `DOMAINS.bny` (mockData.ts lines 4-29). -/
def bnyConfig : DomainConfig :=
  { id := "bny"
    name := "BNY"
    logo := "🏦"
    description := "Financial services, asset management, and complex portfolio queries."
    slaThresholds := { urgent := 4, standard := 24 }
    riskKeywords :=
      { critical :=
          [ "fraud", "unauthorized", "compliance breach", "lawsuit", "breach", "lost money",
            "emergency", "sec investigation", "money laundering", "sanctions", "insider trading",
            "identity theft", "hacked", "fiduciary failure", "regulatory inquiry" ]
        high :=
          [ "fail", "error", "urgent", "stuck", "immediately", "penalty", "escalate",
            "margin call", "trade failure", "wire missing", "incorrect balance", "double charge",
            "cannot withdraw", "account frozen", "system outage" ]
        medium :=
          [ "delay", "slow", "confused", "access", "login", "reset", "password",
            "fees", "statement", "clarification", "not working", "app crash" ] } }

/-- `DOMAINS.zepto` (mockData.ts lines 30-55); `urgent` is the source's
`0.25` hours. -/
def zeptoConfig : DomainConfig :=
  { id := "zepto"
    name := "Zepto"
    logo := "⚡"
    description := "10-minute grocery delivery, order fulfillment, and logistics."
    slaThresholds := { urgent := mkRat 1 4, standard := 1 }
    riskKeywords :=
      { critical :=
          [ "spoiled", "allergy", "sick", "unsafe", "accident", "food poisoning", "scam",
            "sexual harassment", "threatened", "stalking", "severe injury", "hospital",
            "expired product", "foreign object", "contamination" ]
        high :=
          [ "late", "missing", "cold", "wrong item", "refund", "cancel", "driver", "never arrived",
            "spilled", "damaged", "rude", "unprofessional", "vehicle breakdown", "payment failed",
            "charged twice" ]
        medium :=
          [ "status", "where", "promo", "coupon", "bag", "item missing", "change address",
            "add item", "phone number", "contact support", "eta" ] } }

/-- The `DOMAINS` record as a lookup: `DOMAINS[domainId]`, `none` when the
key is absent (JS `undefined`). -/
def DOMAINS (domainId : String) : Option DomainConfig :=
  if domainId == "bny" then some bnyConfig
  else if domainId == "zepto" then some zeptoConfig
  else none

/-! ## `geminiService.ts` — risk calculator (lines 93-111) -/

/-- The `{ score, level }` value returned by `calculateRiskScore`. -/
structure RiskAssessment where
  score : Nat
  level : RiskLevel
  deriving DecidableEq, Repr

/-- `calculateRiskScore` (geminiService.ts lines 93-111): three keyword
sweeps adding 40/20/10 per contained phrase, a cap at 100, then the
threshold ladder for the level. -/
def calculateRiskScore (text : String) (domain : DomainConfig) : RiskAssessment :=
  let lowerText := jsToLower text
  let score := domain.riskKeywords.critical.foldl
      (fun s word => if strContains lowerText word then s + 40 else s) 0
  let score := domain.riskKeywords.high.foldl
      (fun s word => if strContains lowerText word then s + 20 else s) score
  let score := domain.riskKeywords.medium.foldl
      (fun s word => if strContains lowerText word then s + 10 else s) score
  let score := if score > 100 then 100 else score
  let level :=
    if score ≥ 80 then RiskLevel.CRITICAL
    else if score ≥ 50 then RiskLevel.HIGH
    else if score ≥ 20 then RiskLevel.MEDIUM
    else RiskLevel.LOW
  { score := score, level := level }

/-! ## `geminiService.ts` — SLA estimator (lines 114-131) -/

/-- The record returned by `checkSLAStatus`. -/
structure SLAStatus where
  breachPredicted : Bool
  timeToResolve : ℚ
  unit : String
  reason : String
  deriving DecidableEq, Repr

/-- `checkSLAStatus` (geminiService.ts lines 114-131). -/
def checkSLAStatus (intent : IntentType) (risk : RiskLevel) (domain : DomainConfig) : SLAStatus :=
  let isUrgent := risk == RiskLevel.HIGH || risk == RiskLevel.CRITICAL
      || intent == IntentType.COMPLAINT
  let threshold := if isUrgent then domain.slaThresholds.urgent else domain.slaThresholds.standard
  let reason :=
    if risk == RiskLevel.CRITICAL then "Critical Risk Score (>80)"
    else if risk == RiskLevel.HIGH then "High Risk Score (>50)"
    else if intent == IntentType.COMPLAINT then "Complaint Priority"
    else if isUrgent then "Urgent Intent Classification"
    else "Standard workflow applies"
  { breachPredicted := isUrgent && decide (threshold < 1)
    timeToResolve := threshold
    unit := "hours"
    reason := reason }

/-! ## `geminiService.ts` — team routing (lines 134-173) -/

/-- JS `Set.prototype.add` on an insertion-ordered set represented as a
duplicate-free list. -/
def jsSetAdd (l : List String) (x : String) : List String :=
  if l.contains x then l else l ++ [x]

/-- JS `Set.prototype.delete`. -/
def jsSetDelete (l : List String) (x : String) : List String :=
  l.filter (fun y => y != x)

/-- `determineNotifiedTeams` (geminiService.ts lines 134-173); the final
`Array.from(teams)` is the identity on the list representation. -/
def determineNotifiedTeams (intent : IntentType) (risk : RiskLevel) (domainId : String) :
    List String :=
  let teams := jsSetAdd [] "L1 Support"
  let teams :=
    if risk == RiskLevel.CRITICAL then
      jsSetAdd (jsSetDelete (jsSetAdd (jsSetAdd teams "Legal & Compliance")
        "Senior Leadership") "L1 Support") "Crisis Response"
    else if risk == RiskLevel.HIGH then
      jsSetAdd (jsSetAdd teams "Risk Management") "L3 Support Lead"
    else teams
  let teams :=
    if intent == IntentType.COMPLAINT then
      jsSetAdd (jsSetAdd teams "Customer Retention") "Quality Assurance"
    else if intent == IntentType.FEEDBACK then
      jsSetAdd (jsSetAdd teams "Product Management") "UX Research"
    else teams
  let teams :=
    if domainId == "zepto" then
      if intent == IntentType.COMPLAINT || risk == RiskLevel.HIGH then
        jsSetAdd (jsSetAdd teams "Logistics Ops") "Hub Manager"
      else teams
    else if domainId == "bny" then
      if intent == IntentType.QUERY && risk != RiskLevel.LOW then
        jsSetAdd teams "Wealth Advisory"
      else teams
    else teams
  teams

/-! ## `geminiService.ts` — external-model oracle -/

/-- Parsed JSON reply of the classification call: the optional `intent`
string field of `JSON.parse(intentRes.text || '{}')` (lines 226-227). -/
structure IntentReply where
  intent : Option String
  deriving DecidableEq, Repr

/-- Parsed JSON reply of the generation call (lines 367-371): optional
`response` string and optional `suggestedActions` array (a present
non-array is indistinguishable from an absent field, as both leave the
action list empty). -/
structure GenReply where
  response : Option String
  suggestedActions : Option (List SuggestedAction)
  deriving DecidableEq, Repr

/-- Parsed JSON reply of the validation call (lines 444-446): optional
`isValid` boolean and optional `reason` string. -/
structure ValReply where
  isValid : Option Bool
  reason : Option String
  deriving DecidableEq, Repr

/-- Outcomes of the three external model-call sites of one run. For each
site, `none` models a throw anywhere inside the corresponding `try` block
(transport failure, unparseable reply, or field access on a non-object);
`some v` models a successfully parsed structured reply. -/
structure ModelOracle where
  classifyOutcome : Option IntentReply
  generateOutcome : Option GenReply
  validateOutcome : Option ValReply
  deriving DecidableEq, Repr

/-! ## `geminiService.ts` — pipeline stages -/

/-- Intent decoding applied to `intentData.intent || ''` (lines 227-236):
exact enum-value match first, then the lowercase substring fallback, then
`QUERY`. -/
def intentFromText (text : String) : IntentType :=
  if text == IntentType.QUERY.val then IntentType.QUERY
  else if text == IntentType.FEEDBACK.val then IntentType.FEEDBACK
  else if text == IntentType.COMPLAINT.val then IntentType.COMPLAINT
  else if text == IntentType.UNKNOWN.val then IntentType.UNKNOWN
  else if strContains (jsToLower text) "complaint" then IntentType.COMPLAINT
  else if strContains (jsToLower text) "feedback" then IntentType.FEEDBACK
  else if strContains (jsToLower text) "feature" then IntentType.FEEDBACK
  else IntentType.QUERY

/-- The generation stage's `(finalResponseText, suggestedActions)`
(lines 331-376): on success, `jsonResponse.response || apology` (JS `||`
treats an absent field and the empty string alike) and the actions array
when present; on a throw, the fixed temporary-issue text with the action
list left at its initial `[]`. -/
def generationOutcome : Option GenReply → String × List SuggestedAction
  | some g =>
    let text :=
      match g.response with
      | some r =>
        if r == "" then "I apologize, I am unable to process your request at the moment." else r
      | none => "I apologize, I am unable to process your request at the moment."
    let acts :=
      match g.suggestedActions with
      | some a => a
      | none => []
    (text, acts)
  | none => ("I encountered a temporary issue processing your request. Please try again.", [])

/-- The validation stage's `(validationPassed, validationReason)`
(lines 394-458): on success, `valData.isValid ?? true` and
`valData.reason || "Validation completed."`; on a throw, the initial
`validationPassed = true` is kept and only the reason is overwritten with
the service-unavailable text (fail-open). -/
def validationOutcome : Option ValReply → Bool × String
  | some v =>
    (v.isValid.getD true,
      match v.reason with
      | some r => if r == "" then "Validation completed." else r
      | none => "Validation completed.")
  | none => (true, "Validation service unavailable.")

/-- The metadata bundle of the returned result (lines 470-481). -/
structure ResultMetadata where
  riskScore : Nat
  riskLevel : RiskLevel
  slaBreachPredicted : Bool
  slaTargetHours : ℚ
  slaReason : String
  intent : IntentType
  domain : String
  notifiedTeams : List String
  validationPassed : Bool
  validationReason : String
  deriving DecidableEq, Repr

/-- The value resolved by `processUserRequest` (lines 467-482). -/
structure PipelineResult where
  response : String
  suggestedActions : List SuggestedAction
  metadata : ResultMetadata
  deriving DecidableEq, Repr

set_option linter.unusedVariables false in
/-- `processUserRequest` (geminiService.ts lines 175-483). Returns the
settled promise (`Except.error ()` models an uncaught exception reaching
the caller) together with the ordered list of progress events handed to
`onStepUpdate`. The list literal mirrors the source's emission order; the
generation model call happens between the two SYSTEM events and emits no
event of its own. When `DOMAINS[domainId]` is `undefined`, the first
MASTER pending event has already been emitted when building the intent
prompt dereferences `domain.name` (line 200) outside any `try`, so the
TypeError propagates. -/
def processUserRequest (userMessage : String) (history : List ChatMessage)
    (domainId : String) (oracle : ModelOracle) :
    Except Unit PipelineResult × List ProcessingStep :=
  let masterPending : ProcessingStep :=
    { agent := AgentType.MASTER, message := "Analyzing intent...", status := "pending" }
  match DOMAINS domainId with
  | none => (Except.error (), [masterPending])
  | some domain =>
    let classified : IntentType × List ProcessingStep :=
      match oracle.classifyOutcome with
      | some reply =>
        let text := (reply.intent).getD ""
        let i := intentFromText text
        (i, [{ agent := AgentType.MASTER, message := "Identified Intent: " ++ i.val,
               status := "success" }])
      | none => (IntentType.QUERY, [])
    let intent := classified.1
    let sr := calculateRiskScore userMessage domain
    let slaStatus := checkSLAStatus intent sr.level domain
    let notifiedTeams := determineNotifiedTeams intent sr.level domainId
    let gen := generationOutcome oracle.generateOutcome
    let val := validationOutcome oracle.validateOutcome
    let steps : List ProcessingStep :=
      [masterPending] ++ classified.2 ++
      [ { agent := AgentType.RISK, message := "Calculating risk score based on keywords...",
          status := "pending" },
        { agent := AgentType.RISK,
          message := "Risk Level: " ++ sr.level.val ++ " (Score: " ++ toString sr.score ++ "/100)",
          status := if sr.level == RiskLevel.CRITICAL || sr.level == RiskLevel.HIGH
            then "warning" else "success" },
        { agent := AgentType.SLA, message := "Checking SLA thresholds...", status := "pending" },
        { agent := AgentType.SLA,
          message :=
            if slaStatus.breachPredicted then
              "WARNING: High probability of SLA breach (<" ++ toString slaStatus.timeToResolve
                ++ "h)"
            else "SLA Status Normal (Target: " ++ toString slaStatus.timeToResolve ++ "h)",
          status := if slaStatus.breachPredicted then "warning" else "success" },
        { agent := AgentType.SYSTEM,
          message := "Routing to: " ++ String.intercalate ", " notifiedTeams,
          status := "pending" },
        { agent := AgentType.SYSTEM,
          message := "Routed to: " ++ String.intercalate ", " notifiedTeams,
          status := "success" },
        { agent := AgentType.VALIDATION, message := "Validating response quality...",
          status := "pending" },
        { agent := AgentType.VALIDATION,
          message := if val.1 then "Verified: " ++ val.2 else "FLAGGED: " ++ val.2,
          status := if val.1 then "success" else "warning" } ]
    (Except.ok
      { response := gen.1
        suggestedActions := gen.2
        metadata :=
          { riskScore := sr.score
            riskLevel := sr.level
            slaBreachPredicted := slaStatus.breachPredicted
            slaTargetHours := slaStatus.timeToResolve
            slaReason := slaStatus.reason
            intent := intent
            domain := domainId
            notifiedTeams := notifiedTeams
            validationPassed := val.1
            validationReason := val.2 } }, steps)

/-! ## Concrete oracles used by counterexamples and witnesses -/

/-- All three model calls succeed with well-formed replies. -/
def oracleAllOk : ModelOracle :=
  { classifyOutcome := some { intent := some "Complaint" }
    generateOutcome := some { response := some "We are sorry.", suggestedActions := some [] }
    validateOutcome := some { isValid := some true, reason := some "Looks good." } }

/-- All three model calls throw. -/
def oracleAllFail : ModelOracle :=
  { classifyOutcome := none, generateOutcome := none, validateOutcome := none }

/-- Classification and generation succeed; the validation call throws. -/
def oracleValFail : ModelOracle :=
  { classifyOutcome := some { intent := some "Complaint" }
    generateOutcome := some { response := some "We are sorry.", suggestedActions := some [] }
    validateOutcome := none }

/-- Validation returns a structured negative verdict. -/
def oracleValNeg : ModelOracle :=
  { classifyOutcome := some { intent := some "Complaint" }
    generateOutcome := some { response := some "We are sorry.", suggestedActions := some [] }
    validateOutcome := some { isValid := some false, reason := some "Tone mismatch" } }

/-! ## Spec-side formulations (for refinement comparison) -/

/-- Spec side (§4.1): the number of configured phrases in one tier whose
lowercase form the lowercased text contains. -/
def specTierHits (text : String) (phrases : List String) : Nat :=
  (phrases.filter (fun w => strContains (jsToLower text) (jsToLower w))).length

/-- Spec side (§4.1): 40 per matching critical phrase, 20 per high, 10 per
medium, contributions summing across tiers before the clamp. -/
def specRiskSum (text : String) (domain : DomainConfig) : Nat :=
  40 * specTierHits text domain.riskKeywords.critical
    + 20 * specTierHits text domain.riskKeywords.high
    + 10 * specTierHits text domain.riskKeywords.medium

/-- The spec's data-model invariant on `DomainConfig` (§3): every
configured keyword phrase is lowercase. Both shipped configurations
satisfy it. -/
abbrev KeywordsLower (d : DomainConfig) : Prop :=
  ∀ w ∈ d.riskKeywords.critical ++ d.riskKeywords.high ++ d.riskKeywords.medium,
    jsToLower w = w

/-! ## Helper lemmas -/

theorem foldl_keyword_score (p : String → Bool) (k : Nat) :
    ∀ (l : List String) (init : Nat),
      l.foldl (fun s word => if p word then s + k else s) init
        = init + k * (l.filter p).length := by
  intro l
  induction l with
  | nil => intro init; simp
  | cons a t ih =>
    intro init
    simp only [List.foldl_cons, List.filter_cons]
    by_cases h : p a
    · simp only [h, if_true, ih, List.length_cons, Nat.mul_succ]
      omega
    · simp [h, ih]

/-! ## Claims -/

/-- C2: for every text and DomainConfig (whose keyword phrases are
lowercase, as the spec's data model stipulates), the risk score equals the
sum of 40 per critical phrase, 20 per high phrase, and 10 per medium
phrase whose lowercase form the lowercased text contains, clamped to
[0,100] (`Nat` subsumes the lower bound); determinism is definitional for
the pure function `calculateRiskScore`. -/
theorem calculateRiskScore_spec (text : String) (d : DomainConfig)
    (h : KeywordsLower d) :
    (calculateRiskScore text d).score = min (specRiskSum text d) 100 ∧
    (calculateRiskScore text d).score ≤ 100 := by
  have hfc : d.riskKeywords.critical.filter (fun w => strContains (jsToLower text) w)
      = d.riskKeywords.critical.filter (fun w => strContains (jsToLower text) (jsToLower w)) := by
    refine List.filter_congr (fun w hw => ?_)
    rw [h w (by simp [hw])]
  have hfh : d.riskKeywords.high.filter (fun w => strContains (jsToLower text) w)
      = d.riskKeywords.high.filter (fun w => strContains (jsToLower text) (jsToLower w)) := by
    refine List.filter_congr (fun w hw => ?_)
    rw [h w (by simp [hw])]
  have hfm : d.riskKeywords.medium.filter (fun w => strContains (jsToLower text) w)
      = d.riskKeywords.medium.filter (fun w => strContains (jsToLower text) (jsToLower w)) := by
    refine List.filter_congr (fun w hw => ?_)
    rw [h w (by simp [hw])]
  simp only [calculateRiskScore, foldl_keyword_score, Nat.zero_add, specRiskSum, specTierHits,
    hfc, hfh, hfm]
  set n := 40 * (d.riskKeywords.critical.filter
      (fun w => strContains (jsToLower text) (jsToLower w))).length
    + 20 * (d.riskKeywords.high.filter
      (fun w => strContains (jsToLower text) (jsToLower w))).length
    + 10 * (d.riskKeywords.medium.filter
      (fun w => strContains (jsToLower text) (jsToLower w))).length with hn
  constructor
  · by_cases hgt : n > 100
    all_goals simp [hgt]
    all_goals omega
  · by_cases hgt : n > 100
    all_goals simp [hgt]
    all_goals omega

/-- C2 witness: the shipped BNY configuration satisfies the lowercase
invariant and the theorem applies to it at a concrete text. -/
theorem calculateRiskScore_spec_witness :
    (calculateRiskScore "Please explain these fees" bnyConfig).score
      = min (specRiskSum "Please explain these fees" bnyConfig) 100 ∧
    (calculateRiskScore "Please explain these fees" bnyConfig).score ≤ 100 :=
  calculateRiskScore_spec "Please explain these fees" bnyConfig (by decide)

/-- C3: the risk level accompanying the score is determined from the
clamped score exactly by the fixed thresholds, evaluated CRITICAL first
(`≥ 80`, then `≥ 50`, then `≥ 20`, else LOW); the if-chain is total, so
the inclusive lower bounds exhaustively partition [0,100]. -/
theorem riskLevel_thresholds (text : String) (d : DomainConfig) :
    (calculateRiskScore text d).level =
      if 80 ≤ (calculateRiskScore text d).score then RiskLevel.CRITICAL
      else if 50 ≤ (calculateRiskScore text d).score then RiskLevel.HIGH
      else if 20 ≤ (calculateRiskScore text d).score then RiskLevel.MEDIUM
      else RiskLevel.LOW :=
  rfl

/-- C4: the SLA estimator's target hours are the domain's urgent threshold
exactly when `isUrgent` (level HIGH or CRITICAL, or intent COMPLAINT) and
the standard threshold otherwise, and breach is predicted exactly when
`isUrgent` holds and the chosen target is below one hour. -/
theorem checkSLAStatus_spec (i : IntentType) (r : RiskLevel) (d : DomainConfig) :
    ((checkSLAStatus i r d).timeToResolve =
      if r = RiskLevel.HIGH ∨ r = RiskLevel.CRITICAL ∨ i = IntentType.COMPLAINT
      then d.slaThresholds.urgent else d.slaThresholds.standard) ∧
    ((checkSLAStatus i r d).breachPredicted = true ↔
      (r = RiskLevel.HIGH ∨ r = RiskLevel.CRITICAL ∨ i = IntentType.COMPLAINT) ∧
        (checkSLAStatus i r d).timeToResolve < 1) := by
  cases i <;> cases r <;>
    simp [checkSLAStatus]

/-- C4 witness at a concrete urgent input: a COMPLAINT at LOW risk in the
Zepto domain targets the 0.25-hour urgent threshold and predicts a breach. -/
theorem checkSLAStatus_spec_witness :
    ((checkSLAStatus IntentType.COMPLAINT RiskLevel.LOW zeptoConfig).timeToResolve =
      if RiskLevel.LOW = RiskLevel.HIGH ∨ RiskLevel.LOW = RiskLevel.CRITICAL ∨
          IntentType.COMPLAINT = IntentType.COMPLAINT
      then zeptoConfig.slaThresholds.urgent else zeptoConfig.slaThresholds.standard) ∧
    ((checkSLAStatus IntentType.COMPLAINT RiskLevel.LOW zeptoConfig).breachPredicted = true ↔
      (RiskLevel.LOW = RiskLevel.HIGH ∨ RiskLevel.LOW = RiskLevel.CRITICAL ∨
          IntentType.COMPLAINT = IntentType.COMPLAINT) ∧
        (checkSLAStatus IntentType.COMPLAINT RiskLevel.LOW zeptoConfig).timeToResolve < 1) :=
  checkSLAStatus_spec IntentType.COMPLAINT RiskLevel.LOW zeptoConfig

/-- C5 counterexample: at CRITICAL risk the source produces the reason
string "Critical Risk Score (>80)" — with the parenthetical suffix — not
the claimed exact text "Critical Risk Score". -/
theorem checkSLAStatus_reason_counterexample :
    (checkSLAStatus IntentType.QUERY RiskLevel.CRITICAL bnyConfig).reason
        = "Critical Risk Score (>80)" ∧
    (checkSLAStatus IntentType.QUERY RiskLevel.CRITICAL bnyConfig).reason
        ≠ "Critical Risk Score" := by
  constructor
  · rfl
  · decide

/-- C5 amended: the reason string follows the claimed precedence, but the
CRITICAL and HIGH texts carry the parenthetical suffixes "(>80)" and
"(>50)": CRITICAL gives "Critical Risk Score (>80)"; otherwise HIGH gives
"High Risk Score (>50)"; otherwise COMPLAINT gives "Complaint Priority";
otherwise isUrgent gives "Urgent Intent Classification"; otherwise
"Standard workflow applies". -/
theorem checkSLAStatus_reason (i : IntentType) (r : RiskLevel) (d : DomainConfig) :
    (checkSLAStatus i r d).reason =
      if r = RiskLevel.CRITICAL then "Critical Risk Score (>80)"
      else if r = RiskLevel.HIGH then "High Risk Score (>50)"
      else if i = IntentType.COMPLAINT then "Complaint Priority"
      else if r = RiskLevel.HIGH ∨ r = RiskLevel.CRITICAL ∨ i = IntentType.COMPLAINT
        then "Urgent Intent Classification"
      else "Standard workflow applies" := by
  cases i <;> cases r <;> simp [checkSLAStatus]

/-- C10: the `isUrgent`-only reason branch is unreachable — `isUrgent`
holds only when the level is HIGH or CRITICAL or the intent is COMPLAINT,
each captured by an earlier branch — so the reason is never
"Urgent Intent Classification" and is always one of the other four
strings. -/
theorem checkSLAStatus_reason_never_urgent (i : IntentType) (r : RiskLevel) (d : DomainConfig) :
    (checkSLAStatus i r d).reason ≠ "Urgent Intent Classification" ∧
    (checkSLAStatus i r d).reason ∈
      ([ "Critical Risk Score (>80)", "High Risk Score (>50)", "Complaint Priority",
         "Standard workflow applies" ] : List String) := by
  cases i <;> cases r <;> simp [checkSLAStatus]

/-- C10 witness at a concrete input. -/
theorem checkSLAStatus_reason_never_urgent_witness :
    (checkSLAStatus IntentType.UNKNOWN RiskLevel.HIGH bnyConfig).reason
        ≠ "Urgent Intent Classification" ∧
    (checkSLAStatus IntentType.UNKNOWN RiskLevel.HIGH bnyConfig).reason ∈
      ([ "Critical Risk Score (>80)", "High Risk Score (>50)", "Complaint Priority",
         "Standard workflow applies" ] : List String) :=
  checkSLAStatus_reason_never_urgent IntentType.UNKNOWN RiskLevel.HIGH bnyConfig

/-- C6: the routing result is never empty; at CRITICAL risk the default
team "L1 Support" is absent from the result (for every intent and domain
id); and in the worst case (LOW risk, UNKNOWN intent, any domain id, so no
domain rule fires) the result still contains the default team. -/
theorem determineNotifiedTeams_spec (i : IntentType) (r : RiskLevel) (domainId : String) :
    determineNotifiedTeams i r domainId ≠ [] ∧
    "L1 Support" ∉ determineNotifiedTeams i RiskLevel.CRITICAL domainId ∧
    "L1 Support" ∈ determineNotifiedTeams IntentType.UNKNOWN RiskLevel.LOW domainId := by
  refine ⟨?_, ?_, ?_⟩ <;>
    cases i <;> cases r <;>
      by_cases hz : domainId == "zepto" <;>
        by_cases hb : domainId == "bny" <;>
          simp_all [determineNotifiedTeams, jsSetAdd, jsSetDelete]

/-- C6 witness at a concrete input. -/
theorem determineNotifiedTeams_spec_witness :
    determineNotifiedTeams IntentType.FEEDBACK RiskLevel.MEDIUM "zepto" ≠ [] ∧
    "L1 Support" ∉ determineNotifiedTeams IntentType.FEEDBACK RiskLevel.CRITICAL "zepto" ∧
    "L1 Support" ∈ determineNotifiedTeams IntentType.UNKNOWN RiskLevel.LOW "zepto" :=
  determineNotifiedTeams_spec IntentType.FEEDBACK RiskLevel.MEDIUM "zepto"

/-- C1 counterexample: for a domain id outside the registry (here
"retail"), the run throws before reaching any `try` block — the claim's
universal quantification over every `domainId` fails even with every
model call succeeding. -/
theorem processUserRequest_unknown_domain_counterexample :
    (processUserRequest "hello" [] "retail" oracleAllOk).fst = Except.error () :=
  rfl

/-- C1 amended: for every message, history, *configured* domain id (a key
of `DOMAINS`), and progress callback, the run returns a complete
`PipelineResult` without propagating an exception, and each external-model
failure maps to its documented fallback: failed classification yields
intent QUERY, failed generation yields the fixed apology text with an
empty action list, failed validation fails open. -/
theorem processUserRequest_total (msg : String) (hist : List ChatMessage)
    (domainId : String) (o : ModelOracle) (d : DomainConfig)
    (hd : DOMAINS domainId = some d) :
    ∃ r : PipelineResult,
      (processUserRequest msg hist domainId o).fst = Except.ok r ∧
      (o.classifyOutcome = none → r.metadata.intent = IntentType.QUERY) ∧
      (o.generateOutcome = none →
        r.response = "I encountered a temporary issue processing your request. Please try again." ∧
        r.suggestedActions = []) ∧
      (o.validateOutcome = none → r.metadata.validationPassed = true) := by
  unfold processUserRequest
  rw [hd]
  refine ⟨_, rfl, ?_, ?_, ?_⟩
  · intro hc
    simp [hc]
  · intro hg
    simp [hg, generationOutcome]
  · intro hv
    simp [hv, validationOutcome]

/-- C1 witness: total external-call failure in the BNY domain still
returns a complete result with all three fallbacks. -/
theorem processUserRequest_total_witness :
    ∃ r : PipelineResult,
      (processUserRequest "hi" [] "bny" oracleAllFail).fst = Except.ok r ∧
      (oracleAllFail.classifyOutcome = none → r.metadata.intent = IntentType.QUERY) ∧
      (oracleAllFail.generateOutcome = none →
        r.response = "I encountered a temporary issue processing your request. Please try again." ∧
        r.suggestedActions = []) ∧
      (oracleAllFail.validateOutcome = none → r.metadata.validationPassed = true) :=
  processUserRequest_total "hi" [] "bny" oracleAllFail bnyConfig rfl

/-- C7 counterexample: when the validation call fails, the returned
`validationReason` is "Validation service unavailable." — with a trailing
period — not the claimed exact string "Validation service unavailable". -/
theorem validationReason_counterexample :
    Except.map (fun r : PipelineResult => r.metadata.validationReason)
        (processUserRequest "hi" [] "bny" oracleValFail).fst
      = Except.ok "Validation service unavailable." ∧
    Except.map (fun r : PipelineResult => r.metadata.validationReason)
        (processUserRequest "hi" [] "bny" oracleValFail).fst
      ≠ Except.ok "Validation service unavailable" := by
  refine ⟨rfl, ?_⟩
  intro hcontra
  rw [show Except.map (fun r : PipelineResult => r.metadata.validationReason)
        (processUserRequest "hi" [] "bny" oracleValFail).fst
      = Except.ok "Validation service unavailable." from rfl] at hcontra
  exact absurd (Except.ok.inj hcontra) (by decide)

/-- C7 amended: when the validation model call fails, the result has
`validationPassed = true` and `validationReason` equal to
"Validation service unavailable." (with the source's trailing period), and
the generated reply is still delivered unchanged (fail-open). -/
theorem validation_fail_open (msg : String) (hist : List ChatMessage)
    (domainId : String) (o : ModelOracle) (d : DomainConfig)
    (hd : DOMAINS domainId = some d) (hv : o.validateOutcome = none) :
    ∃ r : PipelineResult,
      (processUserRequest msg hist domainId o).fst = Except.ok r ∧
      r.metadata.validationPassed = true ∧
      r.metadata.validationReason = "Validation service unavailable." ∧
      r.response = (generationOutcome o.generateOutcome).1 := by
  unfold processUserRequest
  rw [hd]
  refine ⟨_, rfl, ?_, ?_, rfl⟩
  · simp [hv, validationOutcome]
  · simp [hv, validationOutcome]

/-- C7 witness at a concrete input. -/
theorem validation_fail_open_witness :
    ∃ r : PipelineResult,
      (processUserRequest "hi" [] "bny" oracleValFail).fst = Except.ok r ∧
      r.metadata.validationPassed = true ∧
      r.metadata.validationReason = "Validation service unavailable." ∧
      r.response = (generationOutcome oracleValFail.generateOutcome).1 :=
  validation_fail_open "hi" [] "bny" oracleValFail bnyConfig rfl rfl

/-- C8: on a structured negative verdict (`isValid = false`) the reply
text and action list are exactly what the generation stage produced,
`validationPassed` is false, and every non-validation component of the
result (reply, actions, and all other metadata fields) coincides with the
same run under any other validation outcome — the verdict affects only the
`validationPassed`/`validationReason` metadata. -/
theorem negative_verdict_only_metadata (msg : String) (hist : List ChatMessage)
    (domainId : String) (o : ModelOracle) (d : DomainConfig) (v : ValReply)
    (hd : DOMAINS domainId = some d) (hv : o.validateOutcome = some v)
    (hneg : v.isValid = some false) :
    ∃ r : PipelineResult,
      (processUserRequest msg hist domainId o).fst = Except.ok r ∧
      r.response = (generationOutcome o.generateOutcome).1 ∧
      r.suggestedActions = (generationOutcome o.generateOutcome).2 ∧
      r.metadata.validationPassed = false ∧
      ∀ w : Option ValReply, ∃ r2 : PipelineResult,
        (processUserRequest msg hist domainId { o with validateOutcome := w }).fst
          = Except.ok r2 ∧
        r2.response = r.response ∧
        r2.suggestedActions = r.suggestedActions ∧
        r2.metadata.riskScore = r.metadata.riskScore ∧
        r2.metadata.riskLevel = r.metadata.riskLevel ∧
        r2.metadata.slaBreachPredicted = r.metadata.slaBreachPredicted ∧
        r2.metadata.slaTargetHours = r.metadata.slaTargetHours ∧
        r2.metadata.slaReason = r.metadata.slaReason ∧
        r2.metadata.intent = r.metadata.intent ∧
        r2.metadata.domain = r.metadata.domain ∧
        r2.metadata.notifiedTeams = r.metadata.notifiedTeams := by
  unfold processUserRequest
  rw [hd]
  refine ⟨_, rfl, rfl, rfl, ?_, ?_⟩
  · simp [hv, hneg, validationOutcome]
  · intro w
    exact ⟨_, rfl, rfl, rfl, rfl, rfl, rfl, rfl, rfl, rfl, rfl, rfl⟩

/-- C8 witness at a concrete input with a concrete negative verdict. -/
theorem negative_verdict_only_metadata_witness :
    ∃ r : PipelineResult,
      (processUserRequest "hi" [] "bny" oracleValNeg).fst = Except.ok r ∧
      r.response = (generationOutcome oracleValNeg.generateOutcome).1 ∧
      r.suggestedActions = (generationOutcome oracleValNeg.generateOutcome).2 ∧
      r.metadata.validationPassed = false ∧
      ∀ w : Option ValReply, ∃ r2 : PipelineResult,
        (processUserRequest "hi" [] "bny" { oracleValNeg with validateOutcome := w }).fst
          = Except.ok r2 ∧
        r2.response = r.response ∧
        r2.suggestedActions = r.suggestedActions ∧
        r2.metadata.riskScore = r.metadata.riskScore ∧
        r2.metadata.riskLevel = r.metadata.riskLevel ∧
        r2.metadata.slaBreachPredicted = r.metadata.slaBreachPredicted ∧
        r2.metadata.slaTargetHours = r.metadata.slaTargetHours ∧
        r2.metadata.slaReason = r.metadata.slaReason ∧
        r2.metadata.intent = r.metadata.intent ∧
        r2.metadata.domain = r.metadata.domain ∧
        r2.metadata.notifiedTeams = r.metadata.notifiedTeams :=
  negative_verdict_only_metadata "hi" [] "bny" oracleValNeg bnyConfig
    { isValid := some false, reason := some "Tone mismatch" } rfl rfl rfl

/-- C9 counterexample: were six stages each to emit a "pending" entry
event, a fully successful run's trace would contain six "pending" events;
the concrete all-success BNY run emits exactly five (no generation-stage
events exist — generation runs between the SYSTEM pair). -/
theorem trace_pending_count_counterexample :
    ((processUserRequest "hi" [] "bny" oracleAllOk).snd.filter
        (fun s => s.status == "pending")).length = 5 ∧
    ((processUserRequest "hi" [] "bny" oracleAllOk).snd.filter
        (fun s => s.status == "pending")).length ≠ 6 := by
  refine ⟨rfl, ?_⟩
  rw [show ((processUserRequest "hi" [] "bny" oracleAllOk).snd.filter
      (fun s => s.status == "pending")).length = 5 from rfl]
  omega

/-- C9 amended: for every run on a configured domain, the progress-event
sequence is exactly five stage-ordered pairs — MASTER, RISK, SLA, SYSTEM,
VALIDATION — each a "pending" entry followed by a "success"/"warning" exit
emitted before the next stage's pending event, except that the MASTER exit
event is omitted when the classification call fails; the generation stage
emits no events of its own (it runs between the SYSTEM pair). -/
theorem trace_stage_ordered (msg : String) (hist : List ChatMessage)
    (domainId : String) (o : ModelOracle) (d : DomainConfig)
    (hd : DOMAINS domainId = some d) :
    ∃ s1 s2 s3 : String,
      (processUserRequest msg hist domainId o).snd.map (fun s => (s.agent, s.status)) =
        (if o.classifyOutcome.isSome
          then [(AgentType.MASTER, "pending"), (AgentType.MASTER, "success")]
          else [(AgentType.MASTER, "pending")]) ++
        [(AgentType.RISK, "pending"), (AgentType.RISK, s1),
         (AgentType.SLA, "pending"), (AgentType.SLA, s2),
         (AgentType.SYSTEM, "pending"), (AgentType.SYSTEM, "success"),
         (AgentType.VALIDATION, "pending"), (AgentType.VALIDATION, s3)] ∧
      s1 ∈ (["success", "warning"] : List String) ∧
      s2 ∈ (["success", "warning"] : List String) ∧
      s3 ∈ (["success", "warning"] : List String) := by
  unfold processUserRequest
  rw [hd]
  cases hc : o.classifyOutcome <;>
    exact ⟨_, _, _, rfl, by split <;> simp, by split <;> simp, by split <;> simp⟩

/-- C9 witness at a concrete input. -/
theorem trace_stage_ordered_witness :
    ∃ s1 s2 s3 : String,
      (processUserRequest "hi" [] "bny" oracleAllOk).snd.map (fun s => (s.agent, s.status)) =
        (if oracleAllOk.classifyOutcome.isSome
          then [(AgentType.MASTER, "pending"), (AgentType.MASTER, "success")]
          else [(AgentType.MASTER, "pending")]) ++
        [(AgentType.RISK, "pending"), (AgentType.RISK, s1),
         (AgentType.SLA, "pending"), (AgentType.SLA, s2),
         (AgentType.SYSTEM, "pending"), (AgentType.SYSTEM, "success"),
         (AgentType.VALIDATION, "pending"), (AgentType.VALIDATION, s3)] ∧
      s1 ∈ (["success", "warning"] : List String) ∧
      s2 ∈ (["success", "warning"] : List String) ∧
      s3 ∈ (["success", "warning"] : List String) :=
  trace_stage_ordered "hi" [] "bny" oracleAllOk bnyConfig rfl

end Triage
